import Mathlib

/-!
Verification development for the Hill Climb Racing repository
(`advanced_game.py`, the canonical "advanced" variant per the spec).

Modelling conventions:

* Python floats are embedded as exact rationals (`ℚ`).  All arithmetic in
  the modelled code paths is +, -, *, /, abs, min, max and comparisons,
  which the rational embedding reproduces exactly.
* The transcendental library functions (`math.sin`, `math.cos`,
  `math.atan2`) and the constant `math.pi` are abstracted into a `Trig`
  structure parameter: the embedded code consults an arbitrary `Trig`
  exactly where the Python consults `math`.  Theorems quantify over all
  `Trig` instances; concrete counterexamples use a sample instance whose
  values agree with the real functions at every point actually consulted
  (e.g. `atan2 0 dx = 0` for `dx > 0`, and only branch-robust comparisons
  against `pi`).
* Python's global Mersenne-Twister stream, reseeded by
  `random.seed(seed)` at the top of `generate_terrain`, is abstracted as
  `randStream : ℚ → ℕ → ℚ` giving the n-th `random.random()` draw for a
  given seed; `random.uniform(a, b)` is `a + (b - a) * random()`.
* `math.sqrt(d) < 50` (pickup radius test, with `d ≥ 0` a sum of squares)
  is embedded as the equivalent exact comparison `d < 2500`.
-/

/-- Game constant `GRAVITY = 0.75`. -/
def GRAVITY : ℚ := 3/4

/-- Game constant `FRICTION = 0.96`. -/
def FRICTION : ℚ := 96/100

/-- Game constant `AIR_RESISTANCE = 0.985`. -/
def AIR_RESISTANCE : ℚ := 985/1000

/-- `SCREEN_WIDTH` from `GRAPHICS_SETTINGS["resolution"] = (1400, 800)`. -/
def SCREEN_WIDTH : ℚ := 1400

/-- `SCREEN_HEIGHT` from `GRAPHICS_SETTINGS["resolution"] = (1400, 800)`. -/
def SCREEN_HEIGHT : ℚ := 800

/-- `TERRAIN_LENGTH = SCREEN_WIDTH * 12 = 16800`. -/
def TERRAIN_LENGTH : ℕ := 16800

/-- Abstraction of the `math` library functions consulted by the code. -/
structure Trig where
  cos : ℚ → ℚ
  sin : ℚ → ℚ
  atan2 : ℚ → ℚ → ℚ
  pi : ℚ

/-- `ROLLOVER_THRESHOLD = math.pi * 0.5`. -/
def rolloverThreshold (T : Trig) : ℚ := T.pi * (5/10)

/-- `FLIP_DAMAGE_THRESHOLD = math.pi * 0.75`. -/
def flipThreshold (T : Trig) : ℚ := T.pi * (75/100)

/-- Python `int(q)`: truncation toward zero. -/
def pytrunc (q : ℚ) : ℤ := if 0 ≤ q then ⌊q⌋ else ⌈q⌉

/-- Python float `a % b` (result has the sign of `b`): `a - b * ⌊a / b⌋`. -/
def pymod (a b : ℚ) : ℚ := a - b * ⌊a / b⌋

/-- Hazard marker dict `{'x': …, 'depth': …, 'width': …}`. -/
structure Hazard where
  x : ℚ
  depth : ℤ
  width : ℤ
  deriving DecidableEq

/-- Coin dict `{'x': …, 'y': …, 'collected': …, 'value': …}`. -/
structure Coin where
  x : ℚ
  y : ℚ
  collected : Bool
  value : ℚ
  deriving DecidableEq

/-- Fuel-can dict `{'x': …, 'y': …, 'collected': …, 'fuel': …}`. -/
structure FuelCan where
  x : ℚ
  y : ℚ
  collected : Bool
  fuel : ℚ
  deriving DecidableEq

/-- The terrain data produced by `Terrain.generate_terrain` (the `hills`
list is written but never read, and is omitted). -/
structure Terrain where
  points : List (ℚ × ℚ)
  hazards : List Hazard
  coins : List Coin
  fuel_cans : List FuelCan
  deriving DecidableEq

/-- The scan `for i in range(len(points)-1): if x1 <= x <= x2: return
y1 + (y2-y1) * ((x-x1)/(x2-x1) if x2 != x1 else 0)` in
`Terrain.get_ground_height`; `none` means the loop fell through. -/
def scanHeight : List (ℚ × ℚ) → ℚ → Option ℚ
  | (x1, y1) :: (x2, y2) :: rest, x =>
    if x1 ≤ x ∧ x ≤ x2 then
      some (y1 + (y2 - y1) * (if x2 ≠ x1 then (x - x1) / (x2 - x1) else 0))
    else scanHeight ((x2, y2) :: rest) x
  | _, _ => none

/-- `Terrain.get_ground_height`: ground height at `x`, `600` for an empty
point list, last point's `y` when the scan falls through. -/
def Terrain.get_ground_height (t : Terrain) (x : ℚ) : ℚ :=
  match t.points with
  | [] => 600
  | p :: ps => (scanHeight (p :: ps) x).getD (((p :: ps).getLastD (0, 600)).2)

/-- The scan in `Terrain.get_ground_angle`:
`if x1 <= x <= x2: return -math.atan2(dy, dx)`. -/
def scanAngle (T : Trig) : List (ℚ × ℚ) → ℚ → Option ℚ
  | (x1, y1) :: (x2, y2) :: rest, x =>
    if x1 ≤ x ∧ x ≤ x2 then some (-(T.atan2 (y2 - y1) (x2 - x1)))
    else scanAngle T ((x2, y2) :: rest) x
  | _, _ => none

/-- `Terrain.get_ground_angle`: terrain angle at `x`, `0` for an empty
point list and `0` when the scan falls through. -/
def Terrain.get_ground_angle (T : Trig) (t : Terrain) (x : ℚ) : ℚ :=
  match t.points with
  | [] => 0
  | p :: ps => (scanAngle T (p :: ps) x).getD 0

/-- `CarStats` dataclass of upgrade multipliers. -/
structure CarStats where
  acceleration : ℚ := 1
  speed : ℚ := 1
  traction : ℚ := 1
  fuel_efficiency : ℚ := 1
  suspension : ℚ := 1
  deriving DecidableEq

/-- `Wheel`: visual wheel state (`x_offset`, `radius`, `rotation`,
`grip`). -/
structure Wheel where
  x_offset : ℚ
  radius : ℚ := 8
  rotation : ℚ := 0
  grip : ℚ := 1
  deriving DecidableEq

/-- `Wheel.update(velocity)`:
`if velocity != 0: rotation += (velocity/radius)*0.1; rotation %= 2*pi`. -/
def Wheel.update (T : Trig) (velocity : ℚ) (w : Wheel) : Wheel :=
  if velocity ≠ 0 then
    { w with rotation := pymod (w.rotation + (velocity / w.radius) * (1/10)) (2 * T.pi) }
  else w

/-- The mutable state of `Car` (the random visual `color` is omitted;
`width = 30`, `height = 50` are kept as fields as in `Car.__init__`). -/
structure Car where
  x : ℚ
  y : ℚ
  vx : ℚ := 0
  vy : ℚ := 0
  angle : ℚ := 0
  stats : CarStats
  width : ℚ := 30
  height : ℚ := 50
  front_wheel : Wheel := { x_offset := 9 }
  rear_wheel : Wheel := { x_offset := -9 }
  fuel : ℚ := 100
  max_fuel : ℚ := 100
  engine_power : ℚ := 0
  brake_power : ℚ := 0
  is_grounded : Bool := false
  distance_traveled : ℚ := 0
  last_x : ℚ
  health : ℚ := 100
  max_health : ℚ := 100
  coins_collected : ℕ := 0
  flip_damage_cooldown : ℤ := 0
  drift_power : ℚ := 0
  deriving DecidableEq

/-- Input intents; each flag models the OR of its key pair as read by
`Car.handle_input` (`K_UP or K_w`, `K_DOWN or K_s`, `K_LEFT or K_a`,
`K_RIGHT or K_d`). -/
structure Keys where
  up : Bool := false
  down : Bool := false
  left : Bool := false
  right : Bool := false
  deriving DecidableEq

/-- `Car.handle_input(keys)`. -/
def Car.handle_input (T : Trig) (k : Keys) (c : Car) : Car :=
  let c1 := { c with engine_power := (0:ℚ), brake_power := (0:ℚ) }
  let c2 := if k.up then { c1 with engine_power := 1 * c1.stats.acceleration } else c1
  let c3 := if k.down then { c2 with brake_power := (8/10 : ℚ) } else c2
  let c4 := if k.left then { c3 with angle := min (c3.angle + 8/100) (T.pi / 3) } else c3
  let c5 := if k.right then { c4 with angle := max (c4.angle - 8/100) (-(T.pi / 3)) } else c4
  if ¬(k.left ∨ k.right) then { c5 with angle := c5.angle * (92/100) } else c5

/-- `Car.update` lines 243-244: decrement the damage cooldown if
positive. -/
def Car.tickCooldown (c : Car) : Car :=
  if c.flip_damage_cooldown > 0 then
    { c with flip_damage_cooldown := c.flip_damage_cooldown - 1 }
  else c

/-- `Car.update` lines 247-251: engine thrust and fuel consumption. -/
def Car.applyEngine (T : Trig) (c : Car) : Car :=
  if c.engine_power > 0 ∧ c.fuel > 0 then
    { c with
      vx := c.vx + T.cos c.angle * c.engine_power * (8/10),
      vy := c.vy + T.sin c.angle * c.engine_power * (8/10),
      fuel := max 0 (c.fuel - c.engine_power * (3/10) / c.stats.fuel_efficiency) }
  else c

/-- `Car.update` lines 254-256: braking scales both velocity
components. -/
def Car.applyBrake (c : Car) : Car :=
  if c.brake_power > 0 then
    { c with
      vx := c.vx * (1 - c.brake_power * (1/10)),
      vy := c.vy * (1 - c.brake_power * (1/10)) }
  else c

/-- `Car.update` lines 259-261: gravity (scaled by suspension) and air
resistance. -/
def Car.applyGravityAir (c : Car) : Car :=
  { c with
    vx := c.vx * AIR_RESISTANCE,
    vy := (c.vy + GRAVITY * (1 - c.stats.suspension * (1/10))) * AIR_RESISTANCE }

/-- `Car.update` lines 282-293: flip-damage evaluation on
(cooldown, health, flip_angle), returning the new (health, cooldown). -/
def flipDamage (T : Trig) (cd : ℤ) (h : ℚ) (a : ℚ) : ℚ × ℤ :=
  if a > rolloverThreshold T ∧ a < flipThreshold T then
    if cd ≤ 0 then (h - min 20 (a * 5), 30) else (h, cd)
  else if a > flipThreshold T then
    if cd ≤ 0 then (h - min 60 (a * 20), 60) else (h, cd)
  else (h, cd)

/-- `Car.update` lines 264-293: ground collision response, friction,
terrain alignment and flip damage (`is_grounded` is reset and set). -/
def Car.groundContact (T : Trig) (t : Terrain) (c : Car) : Car :=
  let ground_y := t.get_ground_height c.x
  let terrain_angle := t.get_ground_angle T c.x
  if c.y + c.height / 2 ≥ ground_y then
    let angle' := c.angle + (terrain_angle - c.angle) * (15/100)
    let hd := flipDamage T c.flip_damage_cooldown c.health |angle'|
    { c with
      y := ground_y - c.height / 2,
      is_grounded := true,
      vy := 0,
      vx := c.vx * (FRICTION * c.stats.traction),
      angle := angle',
      health := hd.1,
      flip_damage_cooldown := hd.2 }
  else { c with is_grounded := false }

/-- `Car.update` lines 296-297: integrate position by velocity. -/
def Car.integrate (c : Car) : Car :=
  { c with x := c.x + c.vx, y := c.y + c.vy }

/-- `Car.update` lines 300-301: accumulate `|Δx|` and update `last_x`. -/
def Car.updateDistance (c : Car) : Car :=
  { c with
    distance_traveled := c.distance_traveled + |c.x - c.last_x|,
    last_x := c.x }

/-- `Car.update` lines 304-305: update both wheels from `vx`. -/
def Car.updateWheels (T : Trig) (c : Car) : Car :=
  { c with
    front_wheel := c.front_wheel.update T c.vx,
    rear_wheel := c.rear_wheel.update T c.vx }

/-- `Car.update` lines 308-312: left-wall clamp and fall-out bound
(`y > SCREEN_HEIGHT + 300` forces health to 0). -/
def Car.boundaries (c : Car) : Car :=
  let c1 := if c.x < 0 then { c with x := (0:ℚ), vx := (0:ℚ) } else c
  if c1.y > SCREEN_HEIGHT + 300 then { c1 with health := (0:ℚ) } else c1

/-- `Car.update` lines 315-316: fuel-starvation health drain. -/
def Car.fuelDrain (c : Car) : Car :=
  if c.fuel ≤ 0 then { c with health := max 0 (c.health - 1/2) } else c

/-- `Car.update(terrain)`: one physics tick, composed of the phases above
in source order. -/
def Car.update (T : Trig) (t : Terrain) (c : Car) : Car :=
  (((((((((c.tickCooldown).applyEngine T).applyBrake).applyGravityAir).groundContact
    T t).integrate).updateDistance).updateWheels T).boundaries).fuelDrain

/-- `Car.collect_coin(coin)`: returns (reported flag, car, coin). -/
def Car.collect_coin (c : Car) (k : Coin) : Bool × Car × Coin :=
  if ¬k.collected then
    (true, { c with coins_collected := c.coins_collected + 1 }, { k with collected := true })
  else (false, c, k)

/-- `Car.collect_fuel(fuel_can)`: returns (reported flag, car, can). -/
def Car.collect_fuel (c : Car) (f : FuelCan) : Bool × Car × FuelCan :=
  if ¬f.collected then
    (true, { c with fuel := min c.max_fuel (c.fuel + f.fuel) }, { f with collected := true })
  else (false, c, f)

/-- Accumulator state of the `generate_terrain` loop; the lists are
accumulated in reverse (Python appends at the end) and reversed at the
close of the loop; `idx` is the position in the seeded random stream. -/
structure GenState where
  rev_points : List (ℚ × ℚ)
  rev_hazards : List Hazard
  rev_coins : List Coin
  rev_fuel_cans : List FuelCan
  y : ℚ
  idx : ℕ
  deriving DecidableEq

/-- One iteration of the `for x in range(0, int(TERRAIN_LENGTH), 5)` loop
of `Terrain.generate_terrain`, for the sample position `x`; `rs` is the
random stream seeded by `random.seed(self.seed)`.  Each `random.random()`
call reads `rs s.idx` and advances the index (the hazard / coin / fuel
conditions evaluate their `random.random()` left operand before the `and`
short-circuits); `random.uniform(-8, 8)` is `-8 + 16 * random()`. -/
def genIter (T : Trig) (rs : ℕ → ℚ) (seed d : ℚ) (x : ℕ) (s : GenState) : GenState :=
  let hill1 := T.sin ((x : ℚ) / 300 + seed) * 80
  let hill2 := T.sin ((x : ℚ) / 600 + seed * 2) * 60
  let hill3 := T.sin ((x : ℚ) / 1200 + seed * 3) * 40
  let target_y := 550 + hill1 + hill2 + hill3
  let y1 := s.y + (target_y - s.y) * (2/10)
  let y2 := max 200 (min 700 y1)
  let bump := rs s.idx < 15/100
  let y3 := if bump then y2 + (-8 + 16 * rs (s.idx + 1)) else y2
  let i1 := if bump then s.idx + 2 else s.idx + 1
  let pts1 := ((x : ℚ), y3) :: s.rev_points
  let hazardHit := rs i1 < 3/100 * d ∧ x % 150 = 0
  let hole_depth : ℤ := pytrunc (60 * (5/10 + d))
  let hole_width : ℤ := pytrunc (80 * (5/10 + d * (5/10)))
  let pts2 := if hazardHit then
      ((x : ℚ) + 40, y3) :: ((x : ℚ) + 20, y3 + (hole_depth : ℚ)) :: pts1
    else pts1
  let hz2 := if hazardHit then
      ({ x := (x : ℚ) + 20, depth := hole_depth, width := hole_width } : Hazard) :: s.rev_hazards
    else s.rev_hazards
  let i2 := i1 + 1
  let coinHit := rs i2 < 3/100 ∧ pts2.length > 5
  let coins2 := if coinHit then
      match pts2 with
      | _ :: prev :: _ => if |y3 - prev.2| < 5 then
          ({ x := (x : ℚ), y := y3 - 60, collected := false, value := 1 } : Coin) :: s.rev_coins
        else s.rev_coins
      | _ => s.rev_coins
    else s.rev_coins
  let i3 := i2 + 1
  let fuelHit := rs i3 < 15/1000 ∧ pts2.length > 5
  let cans2 := if fuelHit then
      match pts2 with
      | _ :: prev :: _ => if |y3 - prev.2| < 8 then
          ({ x := (x : ℚ), y := y3 - 65, collected := false, fuel := 35 } : FuelCan) :: s.rev_fuel_cans
        else s.rev_fuel_cans
      | _ => s.rev_fuel_cans
    else s.rev_fuel_cans
  let i4 := i3 + 1
  { rev_points := pts2, rev_hazards := hz2, rev_coins := coins2,
    rev_fuel_cans := cans2, y := y3, idx := i4 }

/-- The generation loop: `n` iterations remain, the current sample
position is `x` (stepping by 5). -/
def genLoop (T : Trig) (rs : ℕ → ℚ) (seed d : ℚ) : ℕ → ℕ → GenState → GenState
  | 0, _, s => s
  | n + 1, x, s => genLoop T rs seed d n (x + 5) (genIter T rs seed d x s)

/-- `Terrain.generate_terrain` (as invoked by `Terrain.__init__`): walk
`x` over `range(0, 16800, 5)` (3360 samples) starting from `y = 550`,
with the random stream freshly seeded from `seed` by the global
`randStream`. -/
def generate_terrain (T : Trig) (randStream : ℚ → ℕ → ℚ) (seed d : ℚ) : Terrain :=
  let s := genLoop T (randStream seed) seed d 3360 0
    { rev_points := [], rev_hazards := [], rev_coins := [],
      rev_fuel_cans := [], y := 550, idx := 0 }
  { points := s.rev_points.reverse, hazards := s.rev_hazards.reverse,
    coins := s.rev_coins.reverse, fuel_cans := s.rev_fuel_cans.reverse }

/-- The game states of the `GameState` enum. -/
inductive GState where
  | MENU | LEVEL_SELECT | PLAYING | PAUSED | GAME_OVER | GARAGE | SHOP
  | ACHIEVEMENTS | SETTINGS
  deriving DecidableEq

/-- The coin-collection loop of `Game.update`: for each coin, if not
collected and within Euclidean distance 50 of the car (embedded as the
squared-distance test `< 2500`), collect it and add its value (Python's
`coin.get('value', 1)`) to the running total.  Returns the updated coin
list, car and total. -/
def collectCoinsLoop (car : Car) (total : ℚ) : List Coin → List Coin × Car × ℚ
  | [] => ([], car, total)
  | k :: rest =>
    if ¬k.collected ∧ (car.x - k.x) ^ 2 + (car.y - k.y) ^ 2 < 2500 then
      let r := car.collect_coin k
      let out := collectCoinsLoop r.2.1 (total + k.value) rest
      (r.2.2 :: out.1, out.2.1, out.2.2)
    else
      let out := collectCoinsLoop car total rest
      (k :: out.1, out.2.1, out.2.2)

/-- The fuel-can collection loop of `Game.update` (same squared-distance
embedding of `sqrt(…) < 50`). -/
def collectFuelLoop (car : Car) : List FuelCan → List FuelCan × Car
  | [] => ([], car)
  | f :: rest =>
    if ¬f.collected ∧ (car.x - f.x) ^ 2 + (car.y - f.y) ^ 2 < 2500 then
      let r := car.collect_fuel f
      let out := collectFuelLoop r.2.1 rest
      (r.2.2 :: out.1, out.2)
    else
      let out := collectFuelLoop car rest
      (f :: out.1, out.2)

/-- The simulation-relevant state of `Game` (rendering surfaces, menus,
particle pool and the save file are presentation / persistence state that
neither reads nor writes the fields modelled here). -/
structure Game where
  game_state : GState
  car : Car
  terrain : Terrain
  total_coins : ℚ
  camera_x : ℚ
  deriving DecidableEq

/-- `Game.update` (lines 880-917): the `PLAYING` branch handles input,
steps the car physics, moves the camera, resolves coin and fuel pickups,
and enters `GAME_OVER` when `health <= 0 or fuel <= 0`; in any other
state `Game.update` changes nothing. -/
def Game.update (T : Trig) (keys : Keys) (g : Game) : Game :=
  if g.game_state = GState.PLAYING then
    let car1 := (g.car.handle_input T keys).update T g.terrain
    let camera := g.camera_x + (car1.x - 200 - g.camera_x) * (1/10)
    let rc := collectCoinsLoop car1 g.total_coins g.terrain.coins
    let rf := collectFuelLoop rc.2.1 g.terrain.fuel_cans
    let car3 := rf.2
    let st := if car3.health ≤ 0 ∨ car3.fuel ≤ 0 then GState.GAME_OVER else GState.PLAYING
    { game_state := st, car := car3,
      terrain := { g.terrain with coins := rc.1, fuel_cans := rf.1 },
      total_coins := rc.2.2, camera_x := camera }
  else g

/-- Sample `Trig` instance for concrete runs.  It agrees with the real
`math` functions at every point the concrete executions below consult:
`atan2 0 dx = 0` for the `dx > 0` actually queried (flat segments),
`cos`/`sin` are never consulted (engine power is 0 in every concrete
run), and every comparison made against `pi` is robust for any value in
(3.14159, 3.1416), an interval containing the real π. -/
def sampleTrig : Trig :=
  { cos := fun _ => 1, sin := fun _ => 0, atan2 := fun _ _ => 0,
    pi := 314159/100000 }

/-- A concrete flat terrain stretch (two samples at height 550). -/
def flatTerrain : Terrain :=
  { points := [(0, 550), (16795, 550)], hazards := [], coins := [], fuel_cans := [] }

/-- Default stats (all multipliers at the baseline 1.0). -/
def baseStats : CarStats := {}

/-- Concrete car for the C2 counterexample: health 10 (within
[0, max_health]), fuel 100, grounded on the flat terrain, tilted to
angle 3 with the damage cooldown expired. -/
def carC2 : Car :=
  { x := 100, y := 525, angle := 3, stats := baseStats, last_x := 100,
    health := 10 }

/-- Concrete car for the C6 counterexample: grounded, cooldown expired,
and tilted so that the post-alignment angle is exactly
`flipThreshold sampleTrig` (the alignment multiplies the angle by 0.85 on
flat ground, so the initial angle is the threshold divided by 0.85). -/
def carC6 : Car :=
  { x := 100, y := 525, angle := 942477/340000, stats := baseStats,
    last_x := 100 }

/-- Concrete car for witnesses: grounded at angle 3, full health. -/
def carC6W : Car :=
  { x := 100, y := 525, angle := 3, stats := baseStats, last_x := 100 }

/-- Concrete airborne car with exhausted fuel and full health for the C1
counterexample. -/
def carC1 : Car :=
  { x := 100, y := 0, stats := baseStats, last_x := 100, fuel := 0 }

/-- Concrete playing-state game for the C1 counterexample. -/
def gameC1 : Game :=
  { game_state := GState.PLAYING, car := carC1, terrain := flatTerrain,
    total_coins := 0, camera_x := 0 }

/-- No key pressed. -/
def noKeys : Keys := {}

/-! ### Helper lemmas about the ground queries -/

lemma scanHeight_eq_none_of_lt_head :
    ∀ (ps : List (ℚ × ℚ)) (x : ℚ),
      List.Chain' (fun p q : ℚ × ℚ => p.1 ≤ q.1) ps →
      (∀ p ∈ ps.head?, x < p.1) → scanHeight ps x = none := by
  intro ps
  induction ps with
  | nil => intro x _ _; rfl
  | cons a tail ih =>
    intro x hch hx
    match tail with
    | [] => rfl
    | b :: rest =>
      have hab : a.1 ≤ b.1 := List.chain'_cons.mp hch |>.1
      have hxa : x < a.1 := hx a rfl
      show scanHeight ((a.1, a.2) :: (b.1, b.2) :: rest) x = none
      unfold scanHeight
      rw [if_neg (by intro hc; exact absurd hc.1 (not_le.mpr hxa))]
      exact ih x (List.chain'_cons.mp hch).2 (by intro p hp; simp at hp; rw [← hp]; linarith)

lemma head_fst_le_getLast_fst :
    ∀ (ps : List (ℚ × ℚ)) (h : ps ≠ []),
      List.Chain' (fun p q : ℚ × ℚ => p.1 ≤ q.1) ps →
      (ps.head h).1 ≤ (ps.getLast h).1 := by
  intro ps
  induction ps with
  | nil => intro h; exact absurd rfl h
  | cons a tail ih =>
    intro _ hch
    match tail with
    | [] => exact le_refl _
    | b :: rest =>
      have hab : a.1 ≤ b.1 := List.chain'_cons.mp hch |>.1
      have htl := ih (by simp) (List.chain'_cons.mp hch).2
      simp only [List.head_cons, List.getLast_cons] at htl ⊢
      exact le_trans hab htl

lemma scanHeight_eq_none_of_getLast_lt :
    ∀ (ps : List (ℚ × ℚ)) (h : ps ≠ []) (x : ℚ),
      List.Chain' (fun p q : ℚ × ℚ => p.1 ≤ q.1) ps →
      (ps.getLast h).1 < x → scanHeight ps x = none := by
  intro ps
  induction ps with
  | nil => intro h; exact absurd rfl h
  | cons a tail ih =>
    intro _ x hch hlast
    match tail with
    | [] => rfl
    | b :: rest =>
      have hch' := (List.chain'_cons.mp hch).2
      have hblast : b.1 ≤ ((b :: rest).getLast (by simp)).1 :=
        head_fst_le_getLast_fst (b :: rest) (by simp) hch'
      rw [List.getLast_cons (by simp)] at hlast
      have hbx : b.1 < x := lt_of_le_of_lt hblast hlast
      show scanHeight ((a.1, a.2) :: (b.1, b.2) :: rest) x = none
      unfold scanHeight
      rw [if_neg (by intro hc; exact absurd hc.2 (not_le.mpr hbx))]
      exact ih (by simp) x hch' hlast

lemma scanAngle_eq_none_of_scanHeight (T : Trig) :
    ∀ (ps : List (ℚ × ℚ)) (x : ℚ),
      scanHeight ps x = none → scanAngle T ps x = none := by
  intro ps
  induction ps with
  | nil => intro x _; rfl
  | cons a tail ih =>
    intro x hsc
    match tail with
    | [] => rfl
    | b :: rest =>
      obtain ⟨a1, a2⟩ := a
      obtain ⟨b1, b2⟩ := b
      unfold scanAngle
      unfold scanHeight at hsc
      split_ifs at hsc ⊢ with hcond
      exact ih x hsc

/-! ### Helper lemmas about the terrain generation loop -/

lemma genLoop_succ (T : Trig) (rs : ℕ → ℚ) (seed d : ℚ) (n x : ℕ) (s : GenState) :
    genLoop T rs seed d (n + 1) x s
      = genLoop T rs seed d n (x + 5) (genIter T rs seed d x s) := rfl

lemma genIter_rev_points (T : Trig) (rs : ℕ → ℚ) (seed d : ℚ) (x : ℕ) (s : GenState) :
    ∃ l : List (ℚ × ℚ), (genIter T rs seed d x s).rev_points = l ++ s.rev_points := by
  unfold genIter
  dsimp only
  split_ifs <;> first
    | exact ⟨[_, _, _], rfl⟩
    | exact ⟨[_], rfl⟩

lemma genLoop_rev_points_suffix (T : Trig) (rs : ℕ → ℚ) (seed d : ℚ) :
    ∀ (n x : ℕ) (s : GenState),
      ∃ l : List (ℚ × ℚ), (genLoop T rs seed d n x s).rev_points = l ++ s.rev_points := by
  intro n
  induction n with
  | zero => exact fun x s => ⟨[], rfl⟩
  | succ n ih =>
    intro x s
    obtain ⟨l1, h1⟩ := genIter_rev_points T rs seed d x s
    obtain ⟨l2, h2⟩ := ih (x + 5) (genIter T rs seed d x s)
    exact ⟨l2 ++ l1, by rw [genLoop_succ, h2, h1, List.append_assoc]⟩

lemma genIter_hazard_cases (T : Trig) (rs : ℕ → ℚ) (seed d : ℚ) (x : ℕ) (s : GenState) :
    ((genIter T rs seed d x s).rev_hazards = s.rev_hazards ∧
      ∃ y' : ℚ, (genIter T rs seed d x s).rev_points = ((x : ℚ), y') :: s.rev_points) ∨
    ∃ hz : Hazard, (genIter T rs seed d x s).rev_hazards = hz :: s.rev_hazards := by
  unfold genIter
  dsimp only
  split_ifs <;> first
    | exact Or.inr ⟨_, rfl⟩
    | exact Or.inl ⟨rfl, _, rfl⟩

lemma genLoop_rev_hazards_suffix (T : Trig) (rs : ℕ → ℚ) (seed d : ℚ) :
    ∀ (n x : ℕ) (s : GenState),
      ∃ l : List Hazard, (genLoop T rs seed d n x s).rev_hazards = l ++ s.rev_hazards := by
  intro n
  induction n with
  | zero => exact fun x s => ⟨[], rfl⟩
  | succ n ih =>
    intro x s
    obtain ⟨l2, h2⟩ := ih (x + 5) (genIter T rs seed d x s)
    rcases genIter_hazard_cases T rs seed d x s with ⟨hkeep, _⟩ | ⟨hz, hcons⟩
    · exact ⟨l2, by rw [genLoop_succ, h2, hkeep]⟩
    · exact ⟨l2 ++ [hz], by rw [genLoop_succ, h2, hcons]; simp⟩

/-- Invariant for the strict-increase proof: the reversed accumulator is
strictly decreasing in `x` and all its entries lie below the current
sample position. -/
def pointsInv (s : GenState) (x : ℕ) : Prop :=
  List.Chain' (fun p q : ℚ × ℚ => q.1 < p.1) s.rev_points ∧
    ∀ p ∈ s.rev_points, p.1 < (x : ℚ)

lemma genIter_pointsInv_of_keep (T : Trig) (rs : ℕ → ℚ) (seed d : ℚ)
    (x : ℕ) (s : GenState)
    (hkeep : (genIter T rs seed d x s).rev_hazards = s.rev_hazards) :
    pointsInv s x → pointsInv (genIter T rs seed d x s) (x + 5) := by
  rintro ⟨hch, hlt⟩
  rcases genIter_hazard_cases T rs seed d x s with ⟨_, y', hy⟩ | ⟨hz, hcons⟩
  · constructor
    · rw [hy]
      refine List.chain'_cons'.mpr ⟨?_, hch⟩
      intro q hq
      exact hlt q (List.mem_of_mem_head? hq)
    · rw [hy]
      intro p hp
      rcases List.mem_cons.mp hp with h1 | h2
      · rw [h1]; push_cast; linarith
      · have := hlt p h2; push_cast at this ⊢; linarith
  · exfalso
    rw [hcons] at hkeep
    exact absurd (congrArg List.length hkeep) (by simp)

lemma genLoop_pointsInv_of_hazards (T : Trig) (rs : ℕ → ℚ) (seed d : ℚ) :
    ∀ (n x : ℕ) (s : GenState), pointsInv s x →
      (genLoop T rs seed d n x s).rev_hazards = s.rev_hazards →
      ∃ x', pointsInv (genLoop T rs seed d n x s) x' := by
  intro n
  induction n with
  | zero => exact fun x s hs _ => ⟨x, hs⟩
  | succ n ih =>
    intro x s hs hhz
    rw [genLoop_succ] at hhz ⊢
    rcases genIter_hazard_cases T rs seed d x s with ⟨hkeep, _⟩ | ⟨hz, hcons⟩
    · refine ih (x + 5) (genIter T rs seed d x s)
        (genIter_pointsInv_of_keep T rs seed d x s hkeep hs) ?_
      rw [hhz, hkeep]
    · exfalso
      obtain ⟨l, hl⟩ := genLoop_rev_hazards_suffix T rs seed d n (x + 5)
        (genIter T rs seed d x s)
      rw [hl, hcons] at hhz
      have hlen := congrArg List.length hhz
      simp [List.length_append] at hlen
      omega

lemma genIter_rev_hazards_of_draw_bound (T : Trig) (rs : ℕ → ℚ) (seed d : ℚ)
    (h : ∀ n, 3/100 * d ≤ rs n) (x : ℕ) (s : GenState) :
    (genIter T rs seed d x s).rev_hazards = s.rev_hazards := by
  unfold genIter
  dsimp only
  rw [if_neg (fun hc => absurd (And.left hc) (not_lt.mpr (h _)))]

lemma genLoop_rev_hazards_of_draw_bound (T : Trig) (rs : ℕ → ℚ) (seed d : ℚ)
    (h : ∀ n, 3/100 * d ≤ rs n) :
    ∀ (n x : ℕ) (s : GenState),
      (genLoop T rs seed d n x s).rev_hazards = s.rev_hazards := by
  intro n
  induction n with
  | zero => exact fun x s => rfl
  | succ n ih =>
    intro x s
    rw [genLoop_succ, ih (x + 5) (genIter T rs seed d x s),
      genIter_rev_hazards_of_draw_bound T rs seed d h x s]

set_option maxRecDepth 4000 in
lemma generate_terrain_hazards_nil (T : Trig) (rs : ℚ → ℕ → ℚ) (seed d : ℚ)
    (h : ∀ n, 3/100 * d ≤ rs seed n) :
    (generate_terrain T rs seed d).hazards = [] := by
  have hgen : (generate_terrain T rs seed d).hazards
      = (genLoop T (rs seed) seed d 3360 0
        { rev_points := [], rev_hazards := [], rev_coins := [],
          rev_fuel_cans := [], y := 550, idx := 0 }).rev_hazards.reverse := by
    simp only [generate_terrain]
  rw [hgen, genLoop_rev_hazards_of_draw_bound T (rs seed) seed d h 3360 0]
  rfl

/-! ### Canonical forms and field-preservation lemmas for the car phases -/

lemma tickCooldown_eq (c : Car) :
    c.tickCooldown = { c with flip_damage_cooldown :=
      if c.flip_damage_cooldown > 0 then c.flip_damage_cooldown - 1
      else c.flip_damage_cooldown } := by
  unfold Car.tickCooldown
  split_ifs <;> rfl

lemma applyEngine_eq (T : Trig) (c : Car) :
    c.applyEngine T = { c with
      vx := if c.engine_power > 0 ∧ c.fuel > 0
        then c.vx + T.cos c.angle * c.engine_power * (8/10) else c.vx,
      vy := if c.engine_power > 0 ∧ c.fuel > 0
        then c.vy + T.sin c.angle * c.engine_power * (8/10) else c.vy,
      fuel := if c.engine_power > 0 ∧ c.fuel > 0
        then max 0 (c.fuel - c.engine_power * (3/10) / c.stats.fuel_efficiency)
        else c.fuel } := by
  unfold Car.applyEngine
  split_ifs <;> rfl

lemma applyBrake_eq (c : Car) :
    c.applyBrake = { c with
      vx := if c.brake_power > 0 then c.vx * (1 - c.brake_power * (1/10)) else c.vx,
      vy := if c.brake_power > 0 then c.vy * (1 - c.brake_power * (1/10)) else c.vy } := by
  unfold Car.applyBrake
  split_ifs <;> rfl

lemma groundContact_eq (T : Trig) (t : Terrain) (c : Car) :
    c.groundContact T t =
      (if c.y + c.height / 2 ≥ t.get_ground_height c.x then
        { c with
          y := t.get_ground_height c.x - c.height / 2,
          is_grounded := true,
          vy := 0,
          vx := c.vx * (FRICTION * c.stats.traction),
          angle := c.angle + (t.get_ground_angle T c.x - c.angle) * (15/100),
          health := (flipDamage T c.flip_damage_cooldown c.health
            |c.angle + (t.get_ground_angle T c.x - c.angle) * (15/100)|).1,
          flip_damage_cooldown := (flipDamage T c.flip_damage_cooldown c.health
            |c.angle + (t.get_ground_angle T c.x - c.angle) * (15/100)|).2 }
      else { c with is_grounded := false }) := by
  unfold Car.groundContact
  rfl

lemma boundaries_eq (c : Car) :
    c.boundaries = { c with
      x := if c.x < 0 then (0:ℚ) else c.x,
      vx := if c.x < 0 then (0:ℚ) else c.vx,
      health := if c.y > SCREEN_HEIGHT + 300 then (0:ℚ) else c.health } := by
  unfold Car.boundaries
  dsimp only
  split_ifs <;> rfl

lemma fuelDrain_eq (c : Car) :
    c.fuelDrain = { c with
      health := if c.fuel ≤ 0 then max 0 (c.health - 1/2) else c.health } := by
  unfold Car.fuelDrain
  split_ifs <;> rfl

lemma updateWheels_eq (T : Trig) (c : Car) :
    c.updateWheels T = { c with
      front_wheel := c.front_wheel.update T c.vx,
      rear_wheel := c.rear_wheel.update T c.vx } := rfl

lemma handle_input_eq (T : Trig) (k : Keys) (c : Car) :
    c.handle_input T k = { c with
      engine_power := if k.up then 1 * c.stats.acceleration else 0,
      brake_power := if k.down then (8/10 : ℚ) else 0,
      angle :=
        (fun a2 =>
          (fun a3 => if ¬(k.left ∨ k.right) then a3 * (92/100) else a3)
            (if k.right then max (a2 - 8/100) (-(T.pi / 3)) else a2))
          (if k.left then min (c.angle + 8/100) (T.pi / 3) else c.angle) } := by
  unfold Car.handle_input
  dsimp only
  split_ifs <;> rfl

lemma flipDamage_fst_le (T : Trig) (cd : ℤ) (h a : ℚ) (ha : 0 ≤ a) :
    (flipDamage T cd h a).1 ≤ h := by
  have h5 : (0:ℚ) ≤ min 20 (a * 5) := le_min (by norm_num) (by positivity)
  have h20 : (0:ℚ) ≤ min 60 (a * 20) := le_min (by norm_num) (by positivity)
  unfold flipDamage
  split_ifs <;> simp <;> linarith

/-! Field-preservation lemmas used by the monotonicity proofs. -/

lemma tickCooldown_health (c : Car) : (c.tickCooldown).health = c.health := by
  rw [tickCooldown_eq]

lemma applyEngine_health (T : Trig) (c : Car) : (c.applyEngine T).health = c.health := by
  rw [applyEngine_eq]

lemma applyBrake_health (c : Car) : (c.applyBrake).health = c.health := by
  rw [applyBrake_eq]

lemma applyGravityAir_health (c : Car) : (c.applyGravityAir).health = c.health := rfl

lemma integrate_health (c : Car) : (c.integrate).health = c.health := rfl

lemma updateDistance_health (c : Car) : (c.updateDistance).health = c.health := rfl

lemma updateWheels_health (T : Trig) (c : Car) : (c.updateWheels T).health = c.health := rfl

lemma groundContact_health_le (T : Trig) (t : Terrain) (c : Car) :
    (c.groundContact T t).health ≤ c.health := by
  rw [groundContact_eq]
  split_ifs
  · exact flipDamage_fst_le T _ _ _ (abs_nonneg _)
  · exact le_refl _

lemma boundaries_health_le (c : Car) : (c.boundaries).health ≤ max c.health 0 := by
  rw [boundaries_eq]
  dsimp only
  split_ifs
  · exact le_max_right _ _
  · exact le_max_left _ _

lemma fuelDrain_health_le (c : Car) : (c.fuelDrain).health ≤ max c.health 0 := by
  rw [fuelDrain_eq]
  dsimp only
  split_ifs
  · exact max_le (le_max_right _ _) (le_trans (by linarith) (le_max_left _ _))
  · exact le_max_left _ _

/-- Health after a full physics tick never exceeds `max health 0`: every
health mutation in `Car.update` is a subtraction of a non-negative
damage, a reset to 0 (fall-out), or a drain clamped at 0. -/
lemma update_health_le (T : Trig) (t : Terrain) (c : Car) :
    (Car.update T t c).health ≤ max c.health 0 := by
  unfold Car.update
  generalize hgc : (((c.tickCooldown.applyEngine T).applyBrake).applyGravityAir).groundContact T t = g
  have hgh : g.health ≤ c.health := by
    rw [← hgc]
    have h1 := groundContact_health_le T t
      (((c.tickCooldown.applyEngine T).applyBrake).applyGravityAir)
    rwa [applyGravityAir_health, applyBrake_health, applyEngine_health,
      tickCooldown_health] at h1
  have hwh : ((g.integrate.updateDistance).updateWheels T).health = g.health := by
    rw [updateWheels_health, updateDistance_health, integrate_health]
  calc ((((g.integrate.updateDistance).updateWheels T).boundaries.fuelDrain).health)
      ≤ max (((g.integrate.updateDistance).updateWheels T).boundaries).health 0 :=
        fuelDrain_health_le _
    _ ≤ max (max (((g.integrate.updateDistance).updateWheels T).health) 0) 0 :=
        max_le_max (boundaries_health_le _) (le_refl _)
    _ = max g.health 0 := by rw [hwh, max_assoc, max_self]
    _ ≤ max c.health 0 := max_le_max hgh (le_refl _)

lemma tickCooldown_fuel (c : Car) : (c.tickCooldown).fuel = c.fuel := by
  rw [tickCooldown_eq]

lemma applyBrake_fuel (c : Car) : (c.applyBrake).fuel = c.fuel := by
  rw [applyBrake_eq]

lemma applyGravityAir_fuel (c : Car) : (c.applyGravityAir).fuel = c.fuel := rfl

lemma groundContact_fuel (T : Trig) (t : Terrain) (c : Car) :
    (c.groundContact T t).fuel = c.fuel := by
  rw [groundContact_eq]
  split_ifs <;> rfl

lemma integrate_fuel (c : Car) : (c.integrate).fuel = c.fuel := rfl

lemma updateDistance_fuel (c : Car) : (c.updateDistance).fuel = c.fuel := rfl

lemma updateWheels_fuel (T : Trig) (c : Car) : (c.updateWheels T).fuel = c.fuel := rfl

lemma boundaries_fuel (c : Car) : (c.boundaries).fuel = c.fuel := by
  rw [boundaries_eq]

lemma fuelDrain_fuel (c : Car) : (c.fuelDrain).fuel = c.fuel := by
  rw [fuelDrain_eq]

lemma applyEngine_fuel_bounds (T : Trig) (c : Car)
    (heff : 0 < c.stats.fuel_efficiency) (hf : 0 ≤ c.fuel) :
    0 ≤ (c.applyEngine T).fuel ∧ (c.applyEngine T).fuel ≤ c.fuel := by
  rw [applyEngine_eq]
  dsimp only
  split_ifs with h
  · constructor
    · exact le_max_left _ _
    · have hk : 0 ≤ c.engine_power * (3/10) / c.stats.fuel_efficiency := by
        have := h.1
        positivity
      exact max_le hf (by linarith)
  · exact ⟨hf, le_refl _⟩

/-- Fuel after a full physics tick stays within `[0, fuel]`: the engine
phase is the only fuel mutation in `Car.update` and it clamps at 0 while
subtracting a non-negative consumption. -/
lemma update_fuel_bounds (T : Trig) (t : Terrain) (c : Car)
    (heff : 0 < c.stats.fuel_efficiency) (hf : 0 ≤ c.fuel) :
    0 ≤ (Car.update T t c).fuel ∧ (Car.update T t c).fuel ≤ c.fuel := by
  unfold Car.update
  rw [fuelDrain_fuel, boundaries_fuel, updateWheels_fuel, updateDistance_fuel,
    integrate_fuel, groundContact_fuel, applyGravityAir_fuel, applyBrake_fuel]
  have h1 := applyEngine_fuel_bounds T c.tickCooldown
    (by rw [tickCooldown_eq]; exact heff) (by rw [tickCooldown_fuel]; exact hf)
  rw [tickCooldown_fuel] at h1
  exact h1

lemma update_max_fuel (T : Trig) (t : Terrain) (c : Car) :
    (Car.update T t c).max_fuel = c.max_fuel := by
  unfold Car.update
  simp only [tickCooldown_eq, applyEngine_eq, applyBrake_eq, Car.applyGravityAir,
    groundContact_eq, Car.integrate, Car.updateDistance, updateWheels_eq,
    boundaries_eq, fuelDrain_eq]
  split_ifs <;> rfl

lemma update_max_health (T : Trig) (t : Terrain) (c : Car) :
    (Car.update T t c).max_health = c.max_health := by
  unfold Car.update
  simp only [tickCooldown_eq, applyEngine_eq, applyBrake_eq, Car.applyGravityAir,
    groundContact_eq, Car.integrate, Car.updateDistance, updateWheels_eq,
    boundaries_eq, fuelDrain_eq]
  split_ifs <;> rfl

lemma handle_input_health (T : Trig) (k : Keys) (c : Car) :
    (c.handle_input T k).health = c.health := by
  rw [handle_input_eq]

lemma handle_input_fuel (T : Trig) (k : Keys) (c : Car) :
    (c.handle_input T k).fuel = c.fuel := by
  rw [handle_input_eq]

lemma handle_input_max_fuel (T : Trig) (k : Keys) (c : Car) :
    (c.handle_input T k).max_fuel = c.max_fuel := by
  rw [handle_input_eq]

lemma handle_input_max_health (T : Trig) (k : Keys) (c : Car) :
    (c.handle_input T k).max_health = c.max_health := by
  rw [handle_input_eq]

lemma handle_input_stats (T : Trig) (k : Keys) (c : Car) :
    (c.handle_input T k).stats = c.stats := by
  rw [handle_input_eq]

/-- One full game-loop tick of the car as driven by the `PLAYING` branch
of `Game.update`: `handle_input` then `update`, iterated over a list of
per-tick key states. -/
def runTicks (T : Trig) (t : Terrain) : List Keys → Car → Car
  | [], c => c
  | k :: ks, c => runTicks T t ks (Car.update T t (c.handle_input T k))

lemma runTicks_health_le (T : Trig) (t : Terrain) :
    ∀ (ks : List Keys) (c : Car), (runTicks T t ks c).health ≤ max c.health 0 := by
  intro ks
  induction ks with
  | nil => exact fun c => le_max_left _ _
  | cons k ks ih =>
    intro c
    refine le_trans (ih _) ?_
    have h1 := update_health_le T t (c.handle_input T k)
    rw [handle_input_health] at h1
    calc max (Car.update T t (c.handle_input T k)).health 0
        ≤ max (max c.health 0) 0 := max_le_max h1 (le_refl _)
      _ = max c.health 0 := by rw [max_assoc, max_self]

/-- The damage cooldown as seen by the flip-damage check of this tick
(after the decrement of lines 243-244). -/
def Car.postCooldown (c : Car) : ℤ := (c.tickCooldown).flip_damage_cooldown

/-- The orientation angle after the exponential terrain alignment of
line 280, in terms of the pre-tick state (the preceding phases do not
modify `x` or `angle`). -/
def Car.alignedAngle (T : Trig) (t : Terrain) (c : Car) : ℚ :=
  c.angle + (t.get_ground_angle T c.x - c.angle) * (15/100)

/-- The fuel level after the engine phase of this tick. -/
def Car.postFuel (T : Trig) (c : Car) : ℚ := ((c.tickCooldown).applyEngine T).fuel

lemma flipDamage_severe (T : Trig) (cd : ℤ) (h a : ℚ)
    (hcd : cd ≤ 0) (ha : a > flipThreshold T) :
    flipDamage T cd h a = (h - min 60 (a * 20), 60) := by
  unfold flipDamage
  rw [if_neg (fun hc => absurd hc.2 (not_lt.mpr (le_of_lt ha))),
    if_pos ha, if_pos hcd]

lemma flipDamage_at_threshold (T : Trig) (cd : ℤ) (h a : ℚ)
    (ha : a = flipThreshold T) :
    flipDamage T cd h a = (h, cd) := by
  unfold flipDamage
  rw [if_neg (fun hc => absurd hc.2 (by rw [ha]; exact lt_irrefl _)),
    if_neg (by rw [ha]; exact lt_irrefl _)]

lemma integrate_y (c : Car) : (c.integrate).y = c.y + c.vy := rfl

lemma updateDistance_y (c : Car) : (c.updateDistance).y = c.y := rfl

lemma updateWheels_y (T : Trig) (c : Car) : (c.updateWheels T).y = c.y := rfl

lemma integrate_cooldown (c : Car) :
    (c.integrate).flip_damage_cooldown = c.flip_damage_cooldown := rfl

lemma updateDistance_cooldown (c : Car) :
    (c.updateDistance).flip_damage_cooldown = c.flip_damage_cooldown := rfl

lemma updateWheels_cooldown (T : Trig) (c : Car) :
    (c.updateWheels T).flip_damage_cooldown = c.flip_damage_cooldown := rfl

lemma boundaries_cooldown (c : Car) :
    (c.boundaries).flip_damage_cooldown = c.flip_damage_cooldown := by
  rw [boundaries_eq]

lemma fuelDrain_cooldown (c : Car) :
    (c.fuelDrain).flip_damage_cooldown = c.flip_damage_cooldown := by
  rw [fuelDrain_eq]

lemma fuelDrain_health_of_pos (c : Car) (h : 0 < c.fuel) :
    (c.fuelDrain).health = c.health := by
  unfold Car.fuelDrain
  rw [if_neg (not_le.mpr h)]

lemma boundaries_health_of_le (c : Car) (h : c.y ≤ SCREEN_HEIGHT + 300) :
    (c.boundaries).health = c.health := by
  rw [boundaries_eq]
  dsimp only
  rw [if_neg (not_lt.mpr h)]

/-- C6 (amended): while the car lands grounded this tick with the damage
cooldown expired, whenever the post-alignment orientation angle strictly
exceeds `flipThreshold` (the code's `elif flip_angle > FLIP_DAMAGE_THRESHOLD`
uses strict comparison), severe damage `min 60 (20 * a)` is subtracted from
health and the longer cooldown of 60 ticks is set (here under the side
conditions that the landing spot is above the fall-out bound and fuel is
not exhausted after the engine phase, so no later phase touches health). -/
theorem C6_severe_damage_strict (T : Trig) (t : Terrain) (c : Car)
    (hg : c.y + c.height / 2 ≥ t.get_ground_height c.x)
    (hcd : Car.postCooldown c ≤ 0)
    (ha : |Car.alignedAngle T t c| > flipThreshold T)
    (hnf : t.get_ground_height c.x - c.height / 2 ≤ SCREEN_HEIGHT + 300)
    (hfuel : 0 < Car.postFuel T c) :
    (Car.update T t c).health
        = c.health - min 60 (|Car.alignedAngle T t c| * 20) ∧
      (Car.update T t c).flip_damage_cooldown = 60 := by
  have h4x : ((((c.tickCooldown).applyEngine T).applyBrake).applyGravityAir).x = c.x := by
    simp only [Car.applyGravityAir, applyBrake_eq, applyEngine_eq, tickCooldown_eq]
  have h4y : ((((c.tickCooldown).applyEngine T).applyBrake).applyGravityAir).y = c.y := by
    simp only [Car.applyGravityAir, applyBrake_eq, applyEngine_eq, tickCooldown_eq]
  have h4angle : ((((c.tickCooldown).applyEngine T).applyBrake).applyGravityAir).angle = c.angle := by
    simp only [Car.applyGravityAir, applyBrake_eq, applyEngine_eq, tickCooldown_eq]
  have h4height : ((((c.tickCooldown).applyEngine T).applyBrake).applyGravityAir).height = c.height := by
    simp only [Car.applyGravityAir, applyBrake_eq, applyEngine_eq, tickCooldown_eq]
  have h4health : ((((c.tickCooldown).applyEngine T).applyBrake).applyGravityAir).health = c.health := by
    rw [applyGravityAir_health, applyBrake_health, applyEngine_health, tickCooldown_health]
  have h4cd : ((((c.tickCooldown).applyEngine T).applyBrake).applyGravityAir).flip_damage_cooldown
      = Car.postCooldown c := by
    simp only [Car.applyGravityAir, applyBrake_eq, applyEngine_eq, Car.postCooldown]
  have h4fuel : ((((c.tickCooldown).applyEngine T).applyBrake).applyGravityAir).fuel
      = Car.postFuel T c := by
    rw [applyGravityAir_fuel, applyBrake_fuel, Car.postFuel]
  unfold Car.update
  generalize hG : (((c.tickCooldown.applyEngine T).applyBrake).applyGravityAir).groundContact T t = g
  have hGfields : g.health = c.health - min 60 (|Car.alignedAngle T t c| * 20) ∧
      g.flip_damage_cooldown = 60 ∧ g.y = t.get_ground_height c.x - c.height / 2 ∧
      g.vy = 0 ∧ g.fuel = Car.postFuel T c := by
    rw [← hG, groundContact_eq, if_pos (by rw [h4x, h4y, h4height]; exact hg)]
    dsimp only
    rw [h4x, h4angle, h4cd, h4health, h4height, h4fuel]
    rw [flipDamage_severe T _ _ _ hcd (by rw [← Car.alignedAngle]; exact ha)]
    exact ⟨rfl, rfl, rfl, rfl, rfl⟩
  obtain ⟨hGh, hGcd, hGy, hGvy, hGf⟩ := hGfields
  constructor
  · rw [fuelDrain_health_of_pos _ (by
        rw [boundaries_fuel, updateWheels_fuel, updateDistance_fuel, integrate_fuel, hGf]
        exact hfuel)]
    rw [boundaries_health_of_le _ (by
        rw [updateWheels_y, updateDistance_y, integrate_y, hGy, hGvy, add_zero]
        exact hnf)]
    rw [updateWheels_health, updateDistance_health, integrate_health, hGh]
  · rw [fuelDrain_cooldown, boundaries_cooldown, updateWheels_cooldown,
      updateDistance_cooldown, integrate_cooldown, hGcd]

/-- Bridge between `getLastD` (used by `get_ground_height`) and
`getLast`. -/
lemma getLastD_cons_eq_getLast (p : ℚ × ℚ) (ps : List (ℚ × ℚ)) (d : ℚ × ℚ) :
    (p :: ps).getLastD d = (p :: ps).getLast (List.cons_ne_nil p ps) := by
  rw [List.getLastD_eq_getLast?, List.getLast?_eq_getLast _ (List.cons_ne_nil p ps)]
  rfl

/-- Concrete sorted two-sample terrain for the out-of-range queries. -/
def t4 : Terrain :=
  { points := [(0, 500), (5, 510)], hazards := [], coins := [], fuel_cans := [] }

/-- Constant random stream (every draw 1/2): never fires a hazard for
difficulty at most 50/3. -/
def halfStream : ℚ → ℕ → ℚ := fun _ _ => 1/2

/-- Random stream whose second draw is 0, firing the hazard check of the
first loop iteration (at `x = 0`, where `x % 150 == 0` holds); all other
draws are 1/2. -/
def rsC5 : ℚ → ℕ → ℚ := fun _ n => if n = 1 then 0 else 1/2

/-- Terrain with no points (degenerate input for the fallback paths). -/
def emptyTerrain : Terrain :=
  { points := [], hazards := [], coins := [], fuel_cans := [] }

/-- Terrain whose first bracketing segment has zero width. -/
def zwTerrain : Terrain :=
  { points := [(1, 5), (1, 7)], hazards := [], coins := [], fuel_cans := [] }

/-- An already-collected coin marker. -/
def coinW : Coin := { x := 3, y := 4, collected := true, value := 1 }

/-- An already-collected fuel-can marker. -/
def canW : FuelCan := { x := 3, y := 4, collected := true, fuel := 35 }

/-- A fresh airborne car with full health and fuel. -/
def carW : Car := { x := 100, y := 0, stats := baseStats, last_x := 100 }

/-! ### Claim theorems -/

/-- C1 (counterexample): in a playing state with fuel exhausted but
health positive, one `Game.update` tick transitions to `GAME_OVER` even
though the car's post-update health (99.5) is positive — refuting "the
simulation transitions to the game-over state if and only if the car's
health is <= 0 after the physics update". -/
theorem C1_counterexample :
    gameC1.game_state = GState.PLAYING ∧
    (Game.update sampleTrig noKeys gameC1).game_state = GState.GAME_OVER ∧
    (0:ℚ) < (Game.update sampleTrig noKeys gameC1).car.health := by
  refine ⟨rfl, ?_, ?_⟩
  · simp only [Game.update, collectCoinsLoop, collectFuelLoop,
      Car.update, Car.handle_input, Car.tickCooldown, Car.applyEngine,
      Car.applyBrake, Car.applyGravityAir, Car.groundContact, Car.integrate,
      Car.updateDistance, Car.updateWheels, Car.boundaries, Car.fuelDrain,
      Car.collect_coin, Car.collect_fuel,
      Wheel.update, flipDamage, Terrain.get_ground_height, Terrain.get_ground_angle,
      scanHeight, scanAngle, rolloverThreshold, flipThreshold,
      GRAVITY, FRICTION, AIR_RESISTANCE, SCREEN_HEIGHT,
      gameC1, carC1, flatTerrain, sampleTrig, noKeys, baseStats]
    norm_num
  · simp only [Game.update, collectCoinsLoop, collectFuelLoop,
      Car.update, Car.handle_input, Car.tickCooldown, Car.applyEngine,
      Car.applyBrake, Car.applyGravityAir, Car.groundContact, Car.integrate,
      Car.updateDistance, Car.updateWheels, Car.boundaries, Car.fuelDrain,
      Car.collect_coin, Car.collect_fuel,
      Wheel.update, flipDamage, Terrain.get_ground_height, Terrain.get_ground_angle,
      scanHeight, scanAngle, rolloverThreshold, flipThreshold,
      GRAVITY, FRICTION, AIR_RESISTANCE, SCREEN_HEIGHT,
      gameC1, carC1, flatTerrain, sampleTrig, noKeys, baseStats]
    norm_num

/-- C1 (amended): for every tick of the playing state, the simulation
transitions to the game-over state if and only if, after the physics
update and pickup resolution, the car's health is <= 0 OR its fuel is
<= 0 — the code's game-over check (line 914) also fires on bare fuel
exhaustion, in addition to the per-tick starvation health drain inside
`Car.update`. -/
theorem C1_game_over_iff (T : Trig) (k : Keys) (g : Game)
    (hp : g.game_state = GState.PLAYING) :
    ((Game.update T k g).game_state = GState.GAME_OVER ↔
      ((Game.update T k g).car.health ≤ 0 ∨ (Game.update T k g).car.fuel ≤ 0)) := by
  unfold Game.update
  rw [if_pos hp]
  dsimp only
  split_ifs with hcond
  · simp only [hcond, iff_true]
  · simp [hcond]

/-- Witness for C1 (amended) at a concrete playing state. -/
theorem C1_game_over_iff_witness :
    gameC1.game_state = GState.PLAYING ∧
    ((Game.update sampleTrig noKeys gameC1).game_state = GState.GAME_OVER ↔
      ((Game.update sampleTrig noKeys gameC1).car.health ≤ 0 ∨
        (Game.update sampleTrig noKeys gameC1).car.fuel ≤ 0)) :=
  ⟨rfl, C1_game_over_iff sampleTrig noKeys gameC1 rfl⟩

/-- C2 (counterexample): a car with health 10 (within [0, max_health]),
fuel within [0, max_fuel] and the no-key input intent, grounded at a
tilted angle, has health -173/100 after one `Car.update` tick — flip
damage is applied with no lower clamp, refuting "after one Car.update
tick health still lies in [0, max_health]". -/
theorem C2_counterexample :
    0 ≤ carC2.health ∧ carC2.health ≤ carC2.max_health ∧
    0 ≤ carC2.fuel ∧ carC2.fuel ≤ carC2.max_fuel ∧
    (Car.update sampleTrig flatTerrain
      (Car.handle_input sampleTrig noKeys carC2)).health = -173/100 ∧
    ((-173:ℚ)/100) < 0 := by
  refine ⟨by norm_num [carC2], by norm_num [carC2], by norm_num [carC2],
    by norm_num [carC2], ?_, by norm_num⟩
  simp only [Car.update, Car.handle_input, Car.tickCooldown, Car.applyEngine,
    Car.applyBrake, Car.applyGravityAir, Car.groundContact, Car.integrate,
    Car.updateDistance, Car.updateWheels, Car.boundaries, Car.fuelDrain,
    Wheel.update, flipDamage, Terrain.get_ground_height, Terrain.get_ground_angle,
    scanHeight, scanAngle, rolloverThreshold, flipThreshold,
    GRAVITY, FRICTION, AIR_RESISTANCE, SCREEN_HEIGHT,
    carC2, flatTerrain, sampleTrig, noKeys, baseStats]
  norm_num
  rw [show |(1173:ℚ)/500| = 1173/500 from abs_of_nonneg (by norm_num)]
  norm_num

/-- C2 (amended): for every car state with fuel in [0, max_fuel] and
health in [0, max_health] (and a positive fuel-efficiency stat), and
every input intent, after one tick fuel still lies in [0, max_fuel] and
health does not exceed max_health (indeed does not increase at all);
health, however, is NOT clamped below — the counterexample shows one
tick of flip damage can push it negative. -/
theorem C2_fuel_clamped_health_capped (T : Trig) (t : Terrain) (k : Keys) (c : Car)
    (heff : 0 < c.stats.fuel_efficiency)
    (hf0 : 0 ≤ c.fuel) (hf1 : c.fuel ≤ c.max_fuel)
    (hh0 : 0 ≤ c.health) (hh1 : c.health ≤ c.max_health) :
    0 ≤ (Car.update T t (c.handle_input T k)).fuel ∧
    (Car.update T t (c.handle_input T k)).fuel
      ≤ (Car.update T t (c.handle_input T k)).max_fuel ∧
    (Car.update T t (c.handle_input T k)).health
      ≤ (Car.update T t (c.handle_input T k)).max_health ∧
    (Car.update T t (c.handle_input T k)).health ≤ c.health := by
  have heff' : 0 < (c.handle_input T k).stats.fuel_efficiency := by
    rw [handle_input_stats]; exact heff
  have hf0' : 0 ≤ (c.handle_input T k).fuel := by
    rw [handle_input_fuel]; exact hf0
  obtain ⟨hb0, hb1⟩ := update_fuel_bounds T t (c.handle_input T k) heff' hf0'
  rw [handle_input_fuel] at hb1
  have hhealth : (Car.update T t (c.handle_input T k)).health ≤ c.health := by
    have h1 := update_health_le T t (c.handle_input T k)
    rwa [handle_input_health, max_eq_left hh0] at h1
  refine ⟨hb0, ?_, ?_, hhealth⟩
  · rw [update_max_fuel, handle_input_max_fuel]
    exact le_trans hb1 hf1
  · rw [update_max_health, handle_input_max_health]
    exact le_trans hhealth hh1

/-- Witness for C2 (amended) at a concrete car and the no-key intent. -/
theorem C2_fuel_clamped_health_capped_witness :
    (0 < carW.stats.fuel_efficiency ∧ 0 ≤ carW.fuel ∧ carW.fuel ≤ carW.max_fuel ∧
      0 ≤ carW.health ∧ carW.health ≤ carW.max_health) ∧
    0 ≤ (Car.update sampleTrig flatTerrain
      (Car.handle_input sampleTrig noKeys carW)).fuel ∧
    (Car.update sampleTrig flatTerrain
      (Car.handle_input sampleTrig noKeys carW)).fuel
      ≤ (Car.update sampleTrig flatTerrain
        (Car.handle_input sampleTrig noKeys carW)).max_fuel ∧
    (Car.update sampleTrig flatTerrain
      (Car.handle_input sampleTrig noKeys carW)).health
      ≤ (Car.update sampleTrig flatTerrain
        (Car.handle_input sampleTrig noKeys carW)).max_health ∧
    (Car.update sampleTrig flatTerrain
      (Car.handle_input sampleTrig noKeys carW)).health ≤ carW.health := by
  refine ⟨⟨by norm_num [carW, baseStats], by norm_num [carW], by norm_num [carW],
    by norm_num [carW], by norm_num [carW]⟩, ?_⟩
  exact C2_fuel_clamped_health_capped sampleTrig flatTerrain noKeys carW
    (by norm_num [carW, baseStats]) (by norm_num [carW]) (by norm_num [carW])
    (by norm_num [carW]) (by norm_num [carW])

/-- C3: health is monotonically non-increasing across ticks: for every
car state with non-negative health (true of every state at which the
game loop invokes the physics update, since a non-positive health ends
the run) and every input intent, health after one tick is at most health
before it, and likewise after any sequence of input-driven ticks. -/
theorem C3_health_nonincreasing (T : Trig) (t : Terrain) (c : Car)
    (h0 : 0 ≤ c.health) :
    (∀ k : Keys, (Car.update T t (c.handle_input T k)).health ≤ c.health) ∧
    (Car.update T t c).health ≤ c.health ∧
    ∀ ks : List Keys, (runTicks T t ks c).health ≤ c.health := by
  have hmax : max c.health 0 = c.health := max_eq_left h0
  refine ⟨fun k => ?_, ?_, fun ks => ?_⟩
  · have h1 := update_health_le T t (c.handle_input T k)
    rwa [handle_input_health, hmax] at h1
  · have h1 := update_health_le T t c
    rwa [hmax] at h1
  · have h1 := runTicks_health_le T t ks c
    rwa [hmax] at h1

/-- Witness for C3 at a concrete car, intent and tick sequence. -/
theorem C3_health_nonincreasing_witness :
    0 ≤ carW.health ∧
    (Car.update sampleTrig flatTerrain
      (Car.handle_input sampleTrig noKeys carW)).health ≤ carW.health ∧
    (Car.update sampleTrig flatTerrain carW).health ≤ carW.health ∧
    (runTicks sampleTrig flatTerrain [noKeys, noKeys] carW).health ≤ carW.health := by
  have h0 : 0 ≤ carW.health := by norm_num [carW]
  have h := C3_health_nonincreasing sampleTrig flatTerrain carW h0
  exact ⟨h0, h.1 noKeys, h.2.1, h.2.2 [noKeys, noKeys]⟩

/-- C4 (counterexample): for a query before the first sample of a sorted
terrain, `get_ground_height` returns the LAST point's height (the loop
falls through to `points[-1][1]`), not the first point's height — the
terrain `[(0, 500), (5, 510)]` queried at `x = -10` yields 510, refuting
"returns the first point's y when x is before the first point". -/
theorem C4_counterexample :
    t4.points.head? = some (0, 500) ∧
    Terrain.get_ground_height t4 (-10) = 510 ∧
    ¬ Terrain.get_ground_height t4 (-10) = 500 := by
  refine ⟨rfl, ?_, ?_⟩ <;>
    · simp [t4, Terrain.get_ground_height, scanHeight]
      norm_num

/-- C4 (amended): for every non-empty x-sorted terrain, a query outside
the sampled range does not fail: `get_ground_height` returns the LAST
sample's height both when x is before the first point and when x is
after the last point (the post-loop fallback is `points[-1][1]` in both
cases, not the nearest boundary), and `get_ground_angle` returns 0 in
both cases. -/
theorem C4_out_of_range_fallback (T : Trig) (t : Terrain) (p : ℚ × ℚ)
    (ps : List (ℚ × ℚ)) (hpts : t.points = p :: ps)
    (hsorted : List.Chain' (fun u v : ℚ × ℚ => u.1 ≤ v.1) (p :: ps)) (x : ℚ) :
    (x < p.1 →
      t.get_ground_height x = ((p :: ps).getLast (List.cons_ne_nil p ps)).2 ∧
      t.get_ground_angle T x = 0) ∧
    (((p :: ps).getLast (List.cons_ne_nil p ps)).1 < x →
      t.get_ground_height x = ((p :: ps).getLast (List.cons_ne_nil p ps)).2 ∧
      t.get_ground_angle T x = 0) := by
  have hval : ∀ hnone : scanHeight (p :: ps) x = none,
      t.get_ground_height x = ((p :: ps).getLast (List.cons_ne_nil p ps)).2 ∧
      t.get_ground_angle T x = 0 := by
    intro hnone
    have hanone := scanAngle_eq_none_of_scanHeight T (p :: ps) x hnone
    constructor
    · unfold Terrain.get_ground_height
      rw [hpts]
      dsimp only
      rw [hnone, Option.getD_none, getLastD_cons_eq_getLast]
    · unfold Terrain.get_ground_angle
      rw [hpts]
      dsimp only
      rw [hanone, Option.getD_none]
  constructor
  · intro hx
    refine hval (scanHeight_eq_none_of_lt_head (p :: ps) x hsorted ?_)
    intro q hq
    simp only [List.head?_cons, Option.mem_def, Option.some.injEq] at hq
    rw [← hq]
    exact hx
  · intro hx
    exact hval (scanHeight_eq_none_of_getLast_lt (p :: ps)
      (List.cons_ne_nil p ps) x hsorted hx)

/-- Witness for C4 (amended) on a concrete sorted terrain, with concrete
out-of-range queries on both sides. -/
theorem C4_out_of_range_fallback_witness :
    ((-10:ℚ) < 0 ∧ Terrain.get_ground_height t4 (-10) = 510 ∧
      Terrain.get_ground_angle sampleTrig t4 (-10) = 0) ∧
    ((5:ℚ) < 100 ∧ Terrain.get_ground_height t4 100 = 510 ∧
      Terrain.get_ground_angle sampleTrig t4 100 = 0) := by
  have hsorted : List.Chain' (fun u v : ℚ × ℚ => u.1 ≤ v.1)
      [((0:ℚ), (500:ℚ)), (5, 510)] := by
    norm_num [List.chain'_cons]
  have h1 := C4_out_of_range_fallback sampleTrig t4 (0, 500) [(5, 510)] rfl hsorted (-10)
  have h2 := C4_out_of_range_fallback sampleTrig t4 (0, 500) [(5, 510)] rfl hsorted 100
  refine ⟨⟨by norm_num, ?_⟩, ⟨by norm_num, ?_⟩⟩
  · exact h1.1 (by norm_num)
  · exact h2.2 (by norm_num [List.getLast])

set_option linter.constructorNameAsVariable false in
/-- C5 (counterexample): the point sequence is NOT x-nondecreasing for
every seed/difficulty/random stream: when the hazard check fires at
`x = 0` (second random draw below `0.03 * difficulty`), the triplet
appends samples at x = 20 and x = 40, after which the next regular
sample is appended at x = 5 — an x-decrease from 40 to 5. -/
theorem C5_counterexample :
    ¬ List.Chain' (fun p q : ℚ × ℚ => p.1 ≤ q.1)
      (generate_terrain sampleTrig rsC5 42 1).points := by
  intro hch
  have hs2 : (genIter sampleTrig (rsC5 42) 42 1 5 (genIter sampleTrig (rsC5 42) 42 1 0
      { rev_points := [], rev_hazards := [], rev_coins := [],
        rev_fuel_cans := [], y := 550, idx := 0 })).rev_points
      = [((5:ℚ), (550:ℚ)), (40, 550), (20, 640), (0, 550)] := by
    simp [genIter, rsC5, sampleTrig, pytrunc]
    norm_num
  obtain ⟨l, hl⟩ := genLoop_rev_points_suffix sampleTrig (rsC5 42) 42 1 3358 10
    (genIter sampleTrig (rsC5 42) 42 1 5 (genIter sampleTrig (rsC5 42) 42 1 0
      { rev_points := [], rev_hazards := [], rev_coins := [],
        rev_fuel_cans := [], y := 550, idx := 0 }))
  rw [hs2] at hl
  have hgen : (generate_terrain sampleTrig rsC5 42 1).points
      = (genLoop sampleTrig (rsC5 42) 42 1 3360 0
        { rev_points := [], rev_hazards := [], rev_coins := [],
          rev_fuel_cans := [], y := 550, idx := 0 }).rev_points.reverse := by
    simp only [generate_terrain]
  rw [hgen, show (3360:ℕ) = 3358 + 1 + 1 from rfl, genLoop_succ, genLoop_succ,
    show (0:ℕ) + 5 = 5 from rfl, show (5:ℕ) + 5 = 10 from rfl, hl,
    List.reverse_append] at hch
  have h4 := (List.chain'_append.mp hch).1
  simp [List.chain'_cons] at h4
  norm_num at h4

set_option maxRecDepth 4000 in
/-- C5 (amended): x is strictly increasing between consecutive samples
whenever no hazard triplet is inserted — equivalently, whenever the
generated hazards list is empty, since each inserted triplet appends
exactly one hazard marker and markers are never removed; an inserted
hazard triplet, however, breaks global x-monotonicity — the regular
sample appended after a triplet at x has smaller x-coordinate (x + 5)
than the triplet's last two points (x + 20, x + 40), as the
counterexample shows. -/
theorem C5_x_strictly_increasing_no_hazard (T : Trig) (rs : ℚ → ℕ → ℚ)
    (seed d : ℚ) (h : (generate_terrain T rs seed d).hazards = []) :
    List.Chain' (fun p q : ℚ × ℚ => p.1 < q.1)
      (generate_terrain T rs seed d).points := by
  have hgenh : (generate_terrain T rs seed d).hazards
      = (genLoop T (rs seed) seed d 3360 0
        { rev_points := [], rev_hazards := [], rev_coins := [],
          rev_fuel_cans := [], y := 550, idx := 0 }).rev_hazards.reverse := by
    simp only [generate_terrain]
  rw [hgenh] at h
  have hnil : (genLoop T (rs seed) seed d 3360 0
      { rev_points := [], rev_hazards := [], rev_coins := [],
        rev_fuel_cans := [], y := 550, idx := 0 }).rev_hazards = [] := by
    simpa using h
  obtain ⟨x', hinv⟩ := genLoop_pointsInv_of_hazards T (rs seed) seed d 3360 0
    { rev_points := [], rev_hazards := [], rev_coins := [],
      rev_fuel_cans := [], y := 550, idx := 0 }
    ⟨List.chain'_nil, by simp⟩ (by rw [hnil])
  have hgen : (generate_terrain T rs seed d).points
      = (genLoop T (rs seed) seed d 3360 0
        { rev_points := [], rev_hazards := [], rev_coins := [],
          rev_fuel_cans := [], y := 550, idx := 0 }).rev_points.reverse := by
    simp only [generate_terrain]
  rw [hgen, List.chain'_reverse]
  exact hinv.1

set_option maxRecDepth 4000 in
/-- Witness for C5 (amended): a stream of constant 1/2 draws at
difficulty 1 never fires a hazard, so the generated hazards list is
empty and the theorem applies. -/
theorem C5_x_strictly_increasing_no_hazard_witness :
    (generate_terrain sampleTrig halfStream 42 1).hazards = [] ∧
    List.Chain' (fun p q : ℚ × ℚ => p.1 < q.1)
      (generate_terrain sampleTrig halfStream 42 1).points := by
  have hnil := generate_terrain_hazards_nil sampleTrig halfStream 42 1
    (fun n => by norm_num [halfStream])
  exact ⟨hnil, C5_x_strictly_increasing_no_hazard sampleTrig halfStream 42 1 hnil⟩

/-- C6 (counterexample): when the post-alignment angle magnitude equals
`flipThreshold` exactly (grounded, cooldown expired), NO damage is
applied and the cooldown stays 0 — both branch guards are strict, so the
claim's "damage is applied when a equals the threshold exactly" fails. -/
theorem C6_counterexample :
    |Car.alignedAngle sampleTrig flatTerrain carC6| = flipThreshold sampleTrig ∧
    Car.postCooldown carC6 ≤ 0 ∧
    carC6.y + carC6.height / 2 ≥ flatTerrain.get_ground_height carC6.x ∧
    (Car.update sampleTrig flatTerrain carC6).health = carC6.health ∧
    (Car.update sampleTrig flatTerrain carC6).flip_damage_cooldown = 0 := by
  refine ⟨?_, ?_, ?_, ?_, ?_⟩
  · simp only [Car.alignedAngle, Terrain.get_ground_angle, scanAngle, flipThreshold,
      carC6, flatTerrain, sampleTrig]
    norm_num
  · simp only [Car.postCooldown, Car.tickCooldown, carC6]
    norm_num
  · simp only [Terrain.get_ground_height, scanHeight, carC6, flatTerrain]
    norm_num
  · simp only [Car.update, Car.tickCooldown, Car.applyEngine,
      Car.applyBrake, Car.applyGravityAir, Car.groundContact, Car.integrate,
      Car.updateDistance, Car.updateWheels, Car.boundaries, Car.fuelDrain,
      Wheel.update, flipDamage, Terrain.get_ground_height, Terrain.get_ground_angle,
      scanHeight, scanAngle, rolloverThreshold, flipThreshold,
      GRAVITY, FRICTION, AIR_RESISTANCE, SCREEN_HEIGHT,
      carC6, flatTerrain, sampleTrig, baseStats]
    norm_num
    rw [show |(942477:ℚ)/400000| = 942477/400000 from abs_of_nonneg (by norm_num)]
    norm_num
  · simp only [Car.update, Car.tickCooldown, Car.applyEngine,
      Car.applyBrake, Car.applyGravityAir, Car.groundContact, Car.integrate,
      Car.updateDistance, Car.updateWheels, Car.boundaries, Car.fuelDrain,
      Wheel.update, flipDamage, Terrain.get_ground_height, Terrain.get_ground_angle,
      scanHeight, scanAngle, rolloverThreshold, flipThreshold,
      GRAVITY, FRICTION, AIR_RESISTANCE, SCREEN_HEIGHT,
      carC6, flatTerrain, sampleTrig, baseStats]
    norm_num
    rw [show |(942477:ℚ)/400000| = 942477/400000 from abs_of_nonneg (by norm_num)]
    norm_num

/-- Witness for C6 (amended) at a concrete grounded tilted car: aligned
angle 2.55 strictly exceeds the threshold, damage `min 60 51 = 51` is
taken and the cooldown is set to 60. -/
theorem C6_severe_damage_strict_witness :
    (carC6W.y + carC6W.height / 2 ≥ flatTerrain.get_ground_height carC6W.x ∧
      Car.postCooldown carC6W ≤ 0 ∧
      |Car.alignedAngle sampleTrig flatTerrain carC6W| > flipThreshold sampleTrig ∧
      flatTerrain.get_ground_height carC6W.x - carC6W.height / 2 ≤ SCREEN_HEIGHT + 300 ∧
      0 < Car.postFuel sampleTrig carC6W) ∧
    (Car.update sampleTrig flatTerrain carC6W).health
      = carC6W.health - min 60 (|Car.alignedAngle sampleTrig flatTerrain carC6W| * 20) ∧
    (Car.update sampleTrig flatTerrain carC6W).flip_damage_cooldown = 60 := by
  have hg : carC6W.y + carC6W.height / 2 ≥ flatTerrain.get_ground_height carC6W.x := by
    simp only [Terrain.get_ground_height, scanHeight, carC6W, flatTerrain]
    norm_num
  have hcd : Car.postCooldown carC6W ≤ 0 := by
    simp only [Car.postCooldown, Car.tickCooldown, carC6W]
    norm_num
  have ha : |Car.alignedAngle sampleTrig flatTerrain carC6W| > flipThreshold sampleTrig := by
    simp only [Car.alignedAngle, Terrain.get_ground_angle, scanAngle, flipThreshold,
      carC6W, flatTerrain, sampleTrig]
    norm_num
    rw [show |(51:ℚ)/20| = 51/20 from abs_of_nonneg (by norm_num)]
    norm_num
  have hnf : flatTerrain.get_ground_height carC6W.x - carC6W.height / 2
      ≤ SCREEN_HEIGHT + 300 := by
    simp only [Terrain.get_ground_height, scanHeight, SCREEN_HEIGHT, carC6W, flatTerrain]
    norm_num
  have hfuel : 0 < Car.postFuel sampleTrig carC6W := by
    simp only [Car.postFuel, Car.applyEngine, Car.tickCooldown, carC6W]
    norm_num
  exact ⟨⟨hg, hcd, ha, hnf, hfuel⟩,
    C6_severe_damage_strict sampleTrig flatTerrain carC6W hg hcd ha hnf hfuel⟩

/-- C7: terrain generation is deterministic — with the random stream a
fixed function of the seed (the code reseeds the global generator via
`random.seed(self.seed)` before generating), two generations with equal
seed and equal difficulty produce element-wise identical points,
hazards, coins and fuel_cans sequences. -/
theorem C7_generation_deterministic (T : Trig) (rs : ℚ → ℕ → ℚ)
    (seed1 seed2 d1 d2 : ℚ) (hs : seed1 = seed2) (hd : d1 = d2) :
    (generate_terrain T rs seed1 d1).points = (generate_terrain T rs seed2 d2).points ∧
    (generate_terrain T rs seed1 d1).hazards = (generate_terrain T rs seed2 d2).hazards ∧
    (generate_terrain T rs seed1 d1).coins = (generate_terrain T rs seed2 d2).coins ∧
    (generate_terrain T rs seed1 d1).fuel_cans
      = (generate_terrain T rs seed2 d2).fuel_cans := by
  subst hs
  subst hd
  exact ⟨rfl, rfl, rfl, rfl⟩

/-- Witness for C7 at a concrete seed, difficulty and stream. -/
theorem C7_generation_deterministic_witness :
    (generate_terrain sampleTrig halfStream 42 1).points
      = (generate_terrain sampleTrig halfStream 42 1).points ∧
    (generate_terrain sampleTrig halfStream 42 1).hazards
      = (generate_terrain sampleTrig halfStream 42 1).hazards ∧
    (generate_terrain sampleTrig halfStream 42 1).coins
      = (generate_terrain sampleTrig halfStream 42 1).coins ∧
    (generate_terrain sampleTrig halfStream 42 1).fuel_cans
      = (generate_terrain sampleTrig halfStream 42 1).fuel_cans :=
  C7_generation_deterministic sampleTrig halfStream 42 42 1 1 rfl rfl

/-- C8: collecting an already-collected pickup is a no-op — for a coin
with `collected = true`, `collect_coin` returns `False` and leaves both
the car (including `coins_collected`) and the marker unchanged; same for
`collect_fuel` and the car's fuel; and after any call to either
resolver, the marker's `collected` flag is `true` (it is set on the
false branch and kept on the true branch, so it only ever transitions
from false to true). -/
theorem C8_pickup_idempotent (c : Car) (k : Coin) (f : FuelCan)
    (hk : k.collected = true) (hf : f.collected = true) :
    c.collect_coin k = (false, c, k) ∧ c.collect_fuel f = (false, c, f) ∧
    ∀ (k' : Coin) (f' : FuelCan),
      (c.collect_coin k').2.2.collected = true ∧
      (c.collect_fuel f').2.2.collected = true := by
  refine ⟨?_, ?_, ?_⟩
  · unfold Car.collect_coin
    rw [if_neg (by simp [hk])]
  · unfold Car.collect_fuel
    rw [if_neg (by simp [hf])]
  · intro k' f'
    constructor
    · unfold Car.collect_coin
      split_ifs with h <;> simp_all
    · unfold Car.collect_fuel
      split_ifs with h <;> simp_all

/-- Witness for C8 at concrete already-collected markers. -/
theorem C8_pickup_idempotent_witness :
    (coinW.collected = true ∧ canW.collected = true) ∧
    carW.collect_coin coinW = (false, carW, coinW) ∧
    carW.collect_fuel canW = (false, carW, canW) ∧
    (carW.collect_coin { coinW with collected := false }).2.2.collected = true := by
  have h := C8_pickup_idempotent carW coinW canW rfl rfl
  exact ⟨⟨rfl, rfl⟩, h.1, h.2.1, (h.2.2 { coinW with collected := false } canW).1⟩

/-- C9: the ground queries are total — on an empty point sequence
`get_ground_height` returns the constant fallback 600 and
`get_ground_angle` returns 0 instead of failing; and when the first
bracketing segment has zero width (two consecutive points sharing x-
coordinate `a`), the interpolation fraction short-circuits to 0 and the
query at `a` returns the segment's first height `y1`, so no division by
zero is reachable. -/
theorem C9_ground_query_total (T : Trig) (t t2 : Terrain) (x a y1 y2 : ℚ)
    (rest : List (ℚ × ℚ)) (he : t.points = [])
    (h2 : t2.points = (a, y1) :: (a, y2) :: rest) :
    t.get_ground_height x = 600 ∧ t.get_ground_angle T x = 0 ∧
    t2.get_ground_height a = y1 := by
  refine ⟨?_, ?_, ?_⟩
  · unfold Terrain.get_ground_height
    rw [he]
  · unfold Terrain.get_ground_angle
    rw [he]
  · unfold Terrain.get_ground_height
    rw [h2]
    dsimp only
    unfold scanHeight
    rw [if_pos ⟨le_refl a, le_refl a⟩, if_neg (by simp)]
    simp

/-- Witness for C9 at concrete degenerate terrains. -/
theorem C9_ground_query_total_witness :
    emptyTerrain.get_ground_height 7 = 600 ∧
    emptyTerrain.get_ground_angle sampleTrig 7 = 0 ∧
    zwTerrain.get_ground_height 1 = 5 :=
  C9_ground_query_total sampleTrig emptyTerrain zwTerrain 7 1 5 7 [] rfl rfl

/-- C10: the physics step is deterministic — `Car.update` consults no
source of randomness, so two runs from identical car state (all fields:
position, velocity, angle, fuel, health, cooldown, stats, engine and
brake power, wheels, distance bookkeeping) against the same terrain
produce identical resulting states. -/
theorem C10_update_deterministic (T : Trig) (t : Terrain) (c1 c2 : Car)
    (hx : c1.x = c2.x) (hy : c1.y = c2.y) (hvx : c1.vx = c2.vx)
    (hvy : c1.vy = c2.vy) (hangle : c1.angle = c2.angle)
    (hstats : c1.stats = c2.stats) (hwidth : c1.width = c2.width)
    (hheight : c1.height = c2.height) (hfw : c1.front_wheel = c2.front_wheel)
    (hrw : c1.rear_wheel = c2.rear_wheel) (hfuel : c1.fuel = c2.fuel)
    (hmf : c1.max_fuel = c2.max_fuel) (hep : c1.engine_power = c2.engine_power)
    (hbp : c1.brake_power = c2.brake_power) (hgr : c1.is_grounded = c2.is_grounded)
    (hdist : c1.distance_traveled = c2.distance_traveled)
    (hlx : c1.last_x = c2.last_x) (hh : c1.health = c2.health)
    (hmh : c1.max_health = c2.max_health)
    (hcc : c1.coins_collected = c2.coins_collected)
    (hfd : c1.flip_damage_cooldown = c2.flip_damage_cooldown)
    (hdp : c1.drift_power = c2.drift_power) :
    Car.update T t c1 = Car.update T t c2 := by
  have hcc12 : c1 = c2 := by
    cases c1
    cases c2
    simp_all
  rw [hcc12]

/-- Witness for C10 at a concrete pair of identical car states. -/
theorem C10_update_deterministic_witness :
    Car.update sampleTrig flatTerrain carW = Car.update sampleTrig flatTerrain carW :=
  C10_update_deterministic sampleTrig flatTerrain carW carW rfl rfl rfl rfl rfl
    rfl rfl rfl rfl rfl rfl rfl rfl rfl rfl rfl rfl rfl rfl rfl rfl rfl
